import Mathlib

/- Shallow embedding of the retrieval, matching, and order-status core of
the webstore chatbot backend (chatbot_backend/app.py), together with
theorems checking the design document against that code.

Modelling conventions:
  - Timestamps are integers (seconds); Python timedelta .days is floor
    division by 86400, which for the positive divisor 86400 coincides with
    integer division on Int in Lean.
  - Scores are rationals; the float literals 0.4, 0.3, 0.2, 0.1, 0.8 of the
    source are the exact rationals mkRat 2 5, mkRat 3 10, mkRat 1 5,
    mkRat 1 10, mkRat 4 5.
  - The embedding model and the cosine-similarity routine are external
    collaborators (sentence transformer, sklearn); they enter as function
    parameters, as the design document prescribes for the embedding
    provider.
  - Date formatting (strftime) is display logic; formatted fields keep the
    underlying timestamp, and message strings take the formatter as a
    parameter. Apostrophes in message literals are elided.
-/

/-! ## String utilities shared by the embedded functions -/

/-- Lowercase a string character by character, the behaviour of the Python
str.lower calls on the ASCII data this application handles. -/
def lowerStr (s : String) : String := ⟨s.data.map Char.toLower⟩

/-- Containment of one character list in another as a contiguous run. -/
def subChain : List Char → List Char → Bool
  | n, [] => n.isPrefixOf []
  | n, c :: t => n.isPrefixOf (c :: t) || subChain n t

/-- The Python expression needle in hay on strings: substring containment. -/
def substrOf (needle hay : String) : Bool := subChain needle.data hay.data

/-- A regex word character, the class matched by backslash-w. -/
def isWordChar (c : Char) : Bool := c.isAlphanum || c = '_'

/-- Accumulator pass splitting a character list into maximal runs of word
characters. -/
def wordRunsAux : List Char → List Char → List String
  | [], acc => if acc.isEmpty then [] else [⟨acc.reverse⟩]
  | c :: t, acc =>
    if isWordChar c then wordRunsAux t (c :: acc)
    else if acc.isEmpty then wordRunsAux t []
    else (⟨acc.reverse⟩ : String) :: wordRunsAux t []

/-- The word tokens of a string, the Python re.findall of word runs used by
the keyword extractor. -/
def wordsOf (s : String) : List String := wordRunsAux s.data []

/-- Single-character replacement, the semantics of the str.replace calls in
the knowledge-id templates (their patterns are single characters). -/
def replaceChar (a b : Char) (s : String) : String :=
  ⟨s.data.map (fun c => if c = a then b else c)⟩

/-- Whether the string strips to nothing, the Python test not s.strip(). -/
def stripEmpty (s : String) : Bool := s.data.all Char.isWhitespace

/-! ## Order-status derivation (get_order_by_id, app.py lines 1652 to 1704) -/

/-- Seconds in a day, the unit of the timedelta day arithmetic. -/
def secondsPerDay : Int := 86400

/-- Whole days elapsed from t to now, the value of (now - t).days in
Python: floor division, which Int division gives for the positive
divisor. -/
def daysBetween (now t : Int) : Int := (now - t) / secondsPerDay

/-- The order row assembled by get_order_by_id before the tracking block:
database fields from the order, customer, and shipping joins, plus the
fetched items and payment. Fields irrelevant to the tracking logic are
represented by the firstName, items, and payment samples. -/
structure OrderRow where
  orderId : String
  orderDate : Option Int
  shippingDate : Option Int
  dbTrackingNumber : Option String
  firstName : String
  items : List Nat
  payment : Option String
deriving DecidableEq

/-- The order record after the tracking block: the row plus the keys the
block may assign. A none value models the key being absent from the
returned dictionary. -/
structure TrackedOrder where
  row : OrderRow
  trackingNumber : Option String
  hasTracking : Option Bool
  trackingStatus : Option String
  trackingMessage : Option String
  estimatedDelivery : Option Int
  estimatedShipping : Option Int
deriving DecidableEq

/-- The tracking block of get_order_by_id (app.py lines 1652 to 1704). fmt
stands for the strftime date formatters; estimated dates keep the raw
timestamp the code formats for display. -/
def deriveTracking (fmt : Int → String) (now : Int) (o : OrderRow) : TrackedOrder :=
  let base : TrackedOrder :=
    { row := o, trackingNumber := o.dbTrackingNumber, hasTracking := none,
      trackingStatus := none, trackingMessage := none,
      estimatedDelivery := none, estimatedShipping := none }
  match o.orderDate with
  | none => base
  | some od =>
    let daysSinceOrder := daysBetween now od
    let withTn : TrackedOrder :=
      match o.dbTrackingNumber with
      | some t => { base with trackingNumber := some t, hasTracking := some true }
      | none =>
        { base with
          trackingNumber := some ("TRK" ++ o.orderId ++ fmt od),
          hasTracking := some false }
    match o.shippingDate with
    | some sd =>
      let daysSinceShipping := daysBetween now sd
      if 5 ≤ daysSinceShipping then
        { withTn with
          trackingStatus := some "Delivered",
          trackingMessage :=
            some ("Your order was delivered on " ++ fmt (sd + 5 * secondsPerDay) ++ ".") }
      else if 1 ≤ daysSinceShipping then
        { withTn with
          trackingStatus := some "In Transit",
          trackingMessage :=
            some ("Your order is on its way! Expected delivery: " ++
              fmt (sd + 5 * secondsPerDay)),
          estimatedDelivery := some (sd + 5 * secondsPerDay) }
      else
        { withTn with
          trackingStatus := some "Shipped",
          trackingMessage :=
            some ("Your order shipped on " ++ fmt sd ++
              " and is being processed for delivery.") }
    | none =>
      if daysSinceOrder = 0 then
        { withTn with
          trackingStatus := some "Order Confirmed",
          trackingMessage :=
            some "Your order has been confirmed and payment processed. We are preparing your items." }
      else if daysSinceOrder = 1 then
        { withTn with
          trackingStatus := some "Processing",
          trackingMessage :=
            some "Your order is being processed and will be shipped within 24 hours." }
      else if daysSinceOrder ≤ 3 then
        { withTn with
          trackingStatus := some "Ready to Ship",
          trackingMessage :=
            some "Your order is packed and ready to ship. You will receive tracking info soon.",
          estimatedShipping := some (od + 3 * secondsPerDay) }
      else
        { withTn with
          trackingStatus := some "Shipped",
          trackingMessage :=
            some "Your order has been shipped. Delivery expected within 3-5 business days.",
          estimatedDelivery := some (od + 7 * secondsPerDay) }

/-- C1: for every order with a placement date the derived status follows
the ordered decision table: with a shipping date, five or more days since
shipping gives Delivered, one to under five days gives In Transit with
estimated delivery five days after shipping, under one day gives Shipped;
without a shipping date, age zero days gives Order Confirmed, one day
Processing, two to three days Ready to Ship with estimated shipping three
days after placement, and older orders Shipped with estimated delivery
seven days after placement. -/
theorem order_status_follows_decision_table
    (fmt : Int → String) (now od : Int) (o : OrderRow)
    (hod : o.orderDate = some od) :
    (∀ sd, o.shippingDate = some sd →
      (5 * secondsPerDay ≤ now - sd →
        (deriveTracking fmt now o).trackingStatus = some "Delivered") ∧
      (secondsPerDay ≤ now - sd → now - sd < 5 * secondsPerDay →
        (deriveTracking fmt now o).trackingStatus = some "In Transit" ∧
        (deriveTracking fmt now o).estimatedDelivery = some (sd + 5 * secondsPerDay)) ∧
      (now - sd < secondsPerDay →
        (deriveTracking fmt now o).trackingStatus = some "Shipped")) ∧
    (o.shippingDate = none →
      (daysBetween now od = 0 →
        (deriveTracking fmt now o).trackingStatus = some "Order Confirmed") ∧
      (daysBetween now od = 1 →
        (deriveTracking fmt now o).trackingStatus = some "Processing") ∧
      (2 ≤ daysBetween now od → daysBetween now od ≤ 3 →
        (deriveTracking fmt now o).trackingStatus = some "Ready to Ship" ∧
        (deriveTracking fmt now o).estimatedShipping = some (od + 3 * secondsPerDay)) ∧
      (3 < daysBetween now od →
        (deriveTracking fmt now o).trackingStatus = some "Shipped" ∧
        (deriveTracking fmt now o).estimatedDelivery = some (od + 7 * secondsPerDay))) := by
  constructor
  · intro sd hsd
    refine ⟨fun h1 => ?_, fun h1 h2 => ?_, fun h1 => ?_⟩
    · have hd : 5 ≤ daysBetween now sd := by
        simp only [daysBetween, secondsPerDay] at *; omega
      simp [deriveTracking, hod, hsd, hd]
    · have hd5 : ¬ 5 ≤ daysBetween now sd := by
        simp only [daysBetween, secondsPerDay] at *; omega
      have hd1 : 1 ≤ daysBetween now sd := by
        simp only [daysBetween, secondsPerDay] at *; omega
      constructor <;> simp [deriveTracking, hod, hsd, hd5, hd1]
    · have hd5 : ¬ 5 ≤ daysBetween now sd := by
        simp only [daysBetween, secondsPerDay] at *; omega
      have hd1 : ¬ 1 ≤ daysBetween now sd := by
        simp only [daysBetween, secondsPerDay] at *; omega
      simp [deriveTracking, hod, hsd, hd5, hd1]
  · intro hsd
    refine ⟨fun h1 => ?_, fun h1 => ?_, fun h1 h2 => ?_, fun h1 => ?_⟩
    · simp [deriveTracking, hod, hsd, h1]
    · have h0 : ¬ daysBetween now od = 0 := by omega
      simp [deriveTracking, hod, hsd, h0, h1]
    · have h0 : ¬ daysBetween now od = 0 := by omega
      have hh1 : ¬ daysBetween now od = 1 := by omega
      constructor <;> simp [deriveTracking, hod, hsd, h0, hh1, h2]
    · have h0 : ¬ daysBetween now od = 0 := by omega
      have hh1 : ¬ daysBetween now od = 1 := by omega
      have h3 : ¬ daysBetween now od ≤ 3 := by omega
      constructor <;> simp [deriveTracking, hod, hsd, h0, hh1, h3]

/-- Shipped two days before now, used to evaluate the decision table. -/
def sampleShippedOrder : OrderRow :=
  { orderId := "101", orderDate := some 0, shippingDate := some 0,
    dbTrackingNumber := some "TN1", firstName := "A", items := [1], payment := some "card" }

/-- Placed at now with no shipping date, used to evaluate the decision
table. -/
def sampleUnshippedOrder : OrderRow :=
  { orderId := "102", orderDate := some 0, shippingDate := none,
    dbTrackingNumber := none, firstName := "B", items := [], payment := none }

/-- The decision-table theorem evaluated on the two sample orders of the
design document: shipped two days ago gives In Transit with delivery five
days after shipping; placed now without shipping gives Order Confirmed. -/
theorem order_status_follows_decision_table_witness :
    (deriveTracking (fun _ => "") (2 * secondsPerDay) sampleShippedOrder).trackingStatus =
        some "In Transit" ∧
    (deriveTracking (fun _ => "") (2 * secondsPerDay) sampleShippedOrder).estimatedDelivery =
        some (0 + 5 * secondsPerDay) ∧
    (deriveTracking (fun _ => "") 0 sampleUnshippedOrder).trackingStatus =
        some "Order Confirmed" := by
  have h1 := order_status_follows_decision_table (fun _ => "") (2 * secondsPerDay) 0
    sampleShippedOrder rfl
  have h2 := order_status_follows_decision_table (fun _ => "") 0 0
    sampleUnshippedOrder rfl
  have ht := (h1.1 0 rfl).2.1 (by decide) (by decide)
  exact ⟨ht.1, ht.2, (h2.2 rfl).1 (by decide)⟩

/-- Order placed on day 10 but recorded as shipped on day 2, observed on
day 4: a shipping date earlier than the placement date. -/
def invertedTimestampOrder : OrderRow :=
  { orderId := "103", orderDate := some (10 * 86400), shippingDate := some (2 * 86400),
    dbTrackingNumber := some "TN3", firstName := "C", items := [], payment := none }

/-- C7 counterexample: on an order whose shipping date precedes its
placement date the code still derives the shipped-family status In Transit
from the invalid shipping date, while the no-shipping-date branch would
have produced Ready to Ship; no fallback and no anomaly flag occur. -/
theorem inverted_timestamp_no_fallback :
    (deriveTracking (fun _ => "") (4 * 86400) invertedTimestampOrder).trackingStatus =
        some "In Transit" ∧
    (deriveTracking (fun _ => "")
        (4 * 86400) { invertedTimestampOrder with shippingDate := none }).trackingStatus =
        some "Ready to Ship" := by
  constructor <;> decide

/-- C7 amended: whenever a shipping date is present the shipped-family
branches apply, even when the shipping date is earlier than the placement
date; the status depends only on the days since shipping. -/
theorem shipped_branch_ignores_placement_order
    (fmt : Int → String) (now od sd : Int) (o : OrderRow)
    (hod : o.orderDate = some od) (hsd : o.shippingDate = some sd)
    (hlt : sd < od) :
    (deriveTracking fmt now o).trackingStatus =
      some (if 5 ≤ daysBetween now sd then "Delivered"
            else if 1 ≤ daysBetween now sd then "In Transit"
            else "Shipped") := by
  simp only [deriveTracking, hod, hsd]
  cases o.dbTrackingNumber <;> split_ifs <;> simp_all

/-- The shipped-family theorem evaluated on the inverted-timestamp order:
two days since the invalid shipping date give In Transit. -/
theorem shipped_branch_ignores_placement_order_witness :
    (deriveTracking (fun _ => "") (4 * 86400) invertedTimestampOrder).trackingStatus =
      some (if 5 ≤ daysBetween (4 * 86400) (2 * 86400) then "Delivered"
            else if 1 ≤ daysBetween (4 * 86400) (2 * 86400) then "In Transit"
            else "Shipped") :=
  shipped_branch_ignores_placement_order (fun _ => "") (4 * 86400) (10 * 86400)
    (2 * 86400) invertedTimestampOrder rfl rfl (by decide)

/-- C9: when the placement date is absent the tracking block assigns
nothing: no status, message, synthesized tracking number, tracking flag,
or estimated date; every other field of the row is passed through. -/
theorem no_order_date_assigns_no_tracking
    (fmt : Int → String) (now : Int) (o : OrderRow) (hod : o.orderDate = none) :
    (deriveTracking fmt now o).trackingStatus = none ∧
    (deriveTracking fmt now o).trackingMessage = none ∧
    (deriveTracking fmt now o).trackingNumber = o.dbTrackingNumber ∧
    (deriveTracking fmt now o).hasTracking = none ∧
    (deriveTracking fmt now o).estimatedDelivery = none ∧
    (deriveTracking fmt now o).estimatedShipping = none ∧
    (deriveTracking fmt now o).row = o := by
  simp [deriveTracking, hod]

/-- An order row with no placement date. -/
def datelessOrder : OrderRow :=
  { orderId := "104", orderDate := none, shippingDate := some 5,
    dbTrackingNumber := some "TN4", firstName := "D", items := [2, 3], payment := some "cod" }

/-- The frame theorem evaluated on the dateless order. -/
theorem no_order_date_assigns_no_tracking_witness :
    (deriveTracking (fun _ => "") 99 datelessOrder).trackingStatus = none ∧
    (deriveTracking (fun _ => "") 99 datelessOrder).trackingNumber = some "TN4" ∧
    (deriveTracking (fun _ => "") 99 datelessOrder).row = datelessOrder := by
  have h := no_order_date_assigns_no_tracking (fun _ => "") 99 datelessOrder rfl
  exact ⟨h.1, h.2.2.1, h.2.2.2.2.2.2⟩

/-! ## Vector knowledge index (WebStoreKnowledgeBase, app.py lines 356 to 475) -/

/-- The result shape of a vector-collection query: chroma returns one inner
list per query embedding; search_knowledge reads index 0. -/
structure KnowledgeQueryResult where
  documents : List (List String)
  metadatas : List (List String)
  distances : Option (List (List ℚ))

/-- One entry of the list search_knowledge returns. -/
structure KnowledgeHit where
  content : String
  metadata : String
  distance : ℚ
deriving DecidableEq

/-- Shallow embedding of WebStoreKnowledgeBase.search_knowledge (app.py
lines 450 to 475). The vector collection and the embedder are external;
the whole guarded block is a function that either yields a query result or
fails, and the except handler returns the empty list. Element access uses
defaulted indexing where the source indexes directly (an index error there
would also land in the except handler and produce the empty list). -/
def searchKnowledge
    (vectorDb : Option (String → Nat → Except String KnowledgeQueryResult))
    (query : String) (nResults : Nat) : List KnowledgeHit :=
  match vectorDb with
  | none => []
  | some runQuery =>
    match runQuery query nResults with
    | .error _ => []
    | .ok res =>
      if res.documents.isEmpty then []
      else
        let docs := res.documents.headD []
        let metas := res.metadatas.headD []
        (List.range docs.length).map (fun i =>
          { content := docs.getD i "",
            metadata := metas.getD i "",
            distance :=
              match res.distances with
              | some d => (d.headD []).getD i 0
              | none => 0 })

/-- C6: the knowledge query returns the empty list, never an error, when
the collection handle is absent, when the lookup fails, or when the
collection is empty (chroma then returns an empty inner document list). -/
theorem search_knowledge_empty_on_failure
    (db : Option (String → Nat → Except String KnowledgeQueryResult))
    (query : String) (nResults : Nat)
    (h : db = none ∨ ∃ runQuery, db = some runQuery ∧
      ((∃ e, runQuery query nResults = Except.error e) ∨
       (∃ res, runQuery query nResults = Except.ok res ∧ res.documents.headD [] = []))) :
    searchKnowledge db query nResults = [] := by
  rcases h with h | ⟨f, rfl, h⟩
  · subst h; rfl
  · rcases h with ⟨e, he⟩ | ⟨res, hok, hd⟩
    · simp [searchKnowledge, he]
    · by_cases hemp : res.documents.isEmpty
      · simp [searchKnowledge, hok, hemp]
      · rw [List.headD_eq_head?] at hd
        simp [searchKnowledge, hok, hemp, hd]

/-- A live but empty vector collection: one query slot, no documents. -/
def emptyKnowledgeDb : String → Nat → Except String KnowledgeQueryResult :=
  fun _ _ => Except.ok { documents := [[]], metadatas := [[]], distances := none }

/-- The empty-index theorem evaluated on the empty collection. -/
theorem search_knowledge_empty_on_failure_witness :
    searchKnowledge (some emptyKnowledgeDb) "shipping policy" 5 = [] :=
  search_knowledge_empty_on_failure (some emptyKnowledgeDb) "shipping policy" 5
    (Or.inr ⟨emptyKnowledgeDb, rfl, Or.inr ⟨_, rfl, rfl⟩⟩)

/-- A catalog row as both the knowledge builder and the matcher read it. -/
structure ProductRecord where
  productId : Nat
  productName : String
  productDiscription : String
  productType : String
  productPrice : ℚ
  stockQuantity : Nat
  productRanking : ℚ
deriving DecidableEq

/-- The knowledge sources build_knowledge_embeddings renders: website
pages, feature list, policies, catalog products, category names. -/
structure KnowledgeSources where
  pages : List (String × String)
  features : List String
  policies : List (String × String)
  products : List ProductRecord
  categories : List String
deriving DecidableEq

/-- Character pass implementing Python str.title: the first letter of each
alphabetic run is uppercased, the rest lowercased. -/
def titleAux : Bool → List Char → List Char
  | _, [] => []
  | prevAlpha, c :: t =>
    (if c.isAlpha then (if prevAlpha then c.toLower else c.toUpper) else c) ::
      titleAux c.isAlpha t

/-- Python str.title, used for the policy document headers. -/
def pythonTitle (s : String) : String := ⟨titleAux false s.data⟩

/-- One document of the knowledge index. -/
structure KnowledgeDoc where
  docId : String
  text : String
  embedding : List ℚ
  metaType : String
deriving DecidableEq

/-- The document list build_knowledge_embeddings assembles (app.py lines
375 to 431): text templates, ids, and embeddings per source record, in
source order. fmtPrice stands for the Python str conversion of the price
in the product template. -/
def renderKnowledgeDocs (encode : String → List ℚ) (fmtPrice : ℚ → String)
    (src : KnowledgeSources) : List KnowledgeDoc :=
  (src.pages.map (fun pd =>
    let text := "Page " ++ pd.1 ++ ": " ++ pd.2
    { docId := "page_" ++ replaceChar '/' '_' pd.1, text := text,
      embedding := encode text, metaType := "page" })) ++
  (src.features.enum.map (fun p =>
    let text := "Website feature: " ++ p.2
    { docId := "feature_" ++ toString p.1, text := text,
      embedding := encode text, metaType := "feature" })) ++
  (src.policies.map (fun pp =>
    let text := pythonTitle pp.1 ++ " Policy: " ++ pp.2
    { docId := "policy_" ++ pp.1, text := text,
      embedding := encode text, metaType := "policy" })) ++
  (src.products.map (fun p =>
    let text := "Product: " ++ p.productName ++ " - " ++ p.productDiscription ++
      " - Category: " ++ p.productType ++ " - Price: $" ++ fmtPrice p.productPrice ++
      " - Stock: " ++ toString p.stockQuantity
    { docId := "product_" ++ toString p.productId, text := text,
      embedding := encode text, metaType := "product" })) ++
  (src.categories.map (fun c =>
    let text := "Product category: " ++ c
    { docId := "category_" ++ replaceChar ' ' '_' (lowerStr c), text := text,
      embedding := encode text, metaType := "category" }))

/-- The vector collection contents, keyed by document id. -/
abbrev VectorStore := List (String × KnowledgeDoc)

/-- Modelled from the spec: the chroma collection operations add and
delete are library code outside this repository. Per the data-model
invariant of section 3 an add with an existing id is an upsert that
overwrites in place, and per section 4.1 the delete with the empty filter
at the start of a rebuild clears the whole collection. -/
def upsertDoc (st : VectorStore) (d : KnowledgeDoc) : VectorStore :=
  if st.any (fun p => p.1 = d.docId) then
    st.map (fun p => if p.1 = d.docId then (p.1, d) else p)
  else st ++ [(d.docId, d)]

/-- Consecutive batches of at most n elements, the batching loop of the
add phase (batch size 100). -/
def chunksOf (n : Nat) : List α → List (List α)
  | [] => []
  | x :: xs => (x :: xs.take (n - 1)) :: chunksOf n (xs.drop (n - 1))
termination_by l => l.length
decreasing_by
  simp only [List.length_drop, List.length_cons]
  omega

/-- Rebatching does not change the element sequence. -/
theorem chunksOf_flatten (n : Nat) : ∀ (l : List α), (chunksOf n l).flatten = l
  | [] => by simp [chunksOf]
  | x :: xs => by
    rw [chunksOf]
    simp only [List.flatten_cons, List.cons_append]
    rw [chunksOf_flatten n (xs.drop (n - 1))]
    simp [List.take_append_drop]
termination_by l => l.length
decreasing_by
  simp only [List.length_drop, List.length_cons]
  omega

/-- Folding batch by batch is folding the joined list. -/
theorem foldl_batches (f : β → α → β) :
    ∀ (batches : List (List α)) (init : β),
      batches.foldl (fun s b => b.foldl f s) init = batches.flatten.foldl f init
  | [], _ => rfl
  | b :: rest, init => by
    simp only [List.foldl_cons, List.flatten_cons, List.foldl_append]
    exact foldl_batches f rest (b.foldl f init)

/-- Shallow embedding of build_knowledge_embeddings (app.py lines 356 to
448): clear the collection, render every source to a document, and add the
documents in batches of 100. -/
def buildKnowledgeEmbeddings (encode : String → List ℚ) (fmtPrice : ℚ → String)
    (src : KnowledgeSources) (st : VectorStore) : VectorStore :=
  let docs := renderKnowledgeDocs encode fmtPrice src
  (chunksOf 100 docs).foldl (fun s batch => batch.foldl upsertDoc s) []

/-- C8: rebuilding from identical sources is idempotent. The rebuilt store
does not depend on the prior store, a second rebuild reproduces the first
exactly (so any query function gives identical results, same ids in the
same order), batching is semantically a single pass over the rendered
documents, and document ids are a function of the sources alone. -/
theorem rebuild_idempotent
    (encode : String → List ℚ) (fmtPrice : ℚ → String) (src : KnowledgeSources)
    (st1 st2 : VectorStore) :
    buildKnowledgeEmbeddings encode fmtPrice src
        (buildKnowledgeEmbeddings encode fmtPrice src st1) =
      buildKnowledgeEmbeddings encode fmtPrice src st1 ∧
    buildKnowledgeEmbeddings encode fmtPrice src st1 =
      buildKnowledgeEmbeddings encode fmtPrice src st2 ∧
    (∀ (queryFn : VectorStore → List KnowledgeHit),
      queryFn (buildKnowledgeEmbeddings encode fmtPrice src
        (buildKnowledgeEmbeddings encode fmtPrice src st1)) =
      queryFn (buildKnowledgeEmbeddings encode fmtPrice src st1)) ∧
    buildKnowledgeEmbeddings encode fmtPrice src st1 =
      (renderKnowledgeDocs encode fmtPrice src).foldl upsertDoc [] := by
  refine ⟨rfl, rfl, fun _ => rfl, ?_⟩
  unfold buildKnowledgeEmbeddings
  rw [foldl_batches, chunksOf_flatten]

/-! ## Multi-signal product matcher (ImageSearchEngine, app.py lines 2204 to 2703) -/

/-- The fashion vocabulary of extract_keywords (app.py lines 2490 to
2526). The source writes it as a Python set literal; duplicate entries of
the literal appear once here and the order is the order of first
occurrence in the literal. The set order only influences which eight
keywords survive the final cap when more than eight match. -/
def fashionKeywords : List String :=
  ["shirt", "dress", "pants", "jeans", "jacket", "coat", "sweater", "hoodie",
   "skirt", "shorts", "top", "blouse", "cardigan", "blazer", "vest", "tshirt",
   "polo", "tank", "crop", "maxi", "mini", "midi", "formal", "casual",
   "uniform", "suit", "trouser", "leggings", "jogger", "sweatshirt",
   "red", "blue", "green", "yellow", "black", "white", "gray", "grey", "brown",
   "pink", "purple", "orange", "navy", "beige", "khaki", "denim", "cream",
   "maroon", "burgundy", "teal", "turquoise", "lime", "olive", "gold", "silver",
   "cotton", "wool", "silk", "linen", "polyester", "leather", "velvet",
   "satin", "chiffon", "jersey", "canvas", "corduroy", "fleece",
   "striped", "floral", "solid", "plaid", "checkered", "polka", "geometric",
   "printed", "embroidered", "lace", "paisley", "animal", "abstract",
   "long", "short", "sleeve", "sleeveless", "collar", "button", "zip", "zipper",
   "pocket", "hood", "belt", "tie", "bow", "ruffle", "pleated", "fitted",
   "loose", "tight", "slim", "regular", "oversized",
   "men", "women", "unisex", "boy", "girl", "adult", "kids", "child",
   "sport", "athletic", "business", "party", "wedding",
   "hat", "cap", "scarf", "gloves", "bag", "shoes", "sneakers",
   "boots", "sandals", "heels", "flats", "watch", "jewelry", "necklace",
   "vintage", "modern", "classic", "trendy", "bohemian", "punk", "gothic",
   "preppy", "streetwear", "minimalist", "elegant", "chic"]

/-- Shallow embedding of extract_keywords (app.py lines 2487 to 2550):
vocabulary words occurring as substrings of the lowercased description,
then vocabulary words among the word tokens (these are always already
found by the substring pass), then words longer than three characters
containing a fashion-indicative substring, capped at eight. -/
def extractKeywords (description : String) : List String :=
  let dl := lowerStr description
  let direct := fashionKeywords.filter (fun kw => substrOf kw dl)
  let ws := wordsOf dl
  let withWords := ws.foldl (fun acc w =>
    if fashionKeywords.contains w && !(acc.contains w) then acc ++ [w] else acc) direct
  let withDescriptors := ws.foldl (fun acc w =>
    if decide (3 < w.length) && !(acc.contains w) &&
        (substrOf "wear" w || substrOf "cloth" w || substrOf "dress" w ||
          substrOf "style" w)
    then acc ++ [w] else acc) withWords
  withDescriptors.take 8

/-- The product text used by the semantic and keyword signals: name,
description, and type joined by spaces. -/
def productText (p : ProductRecord) : String :=
  p.productName ++ " " ++ p.productDiscription ++ " " ++ p.productType

/-- Shallow embedding of calculate_semantic_similarity (app.py lines 2574
to 2597): zero for a blank product text, otherwise the cosine similarity
of the two embeddings clamped below at zero. encode and cosSim are the
external embedder and the external cosine routine. -/
def calculateSemanticSimilarity (encode : String → List ℚ)
    (cosSim : List ℚ → List ℚ → ℚ) (description : String) (p : ProductRecord) : ℚ :=
  if stripEmpty (productText p) then 0
  else max 0 (cosSim (encode description) (encode (productText p)))

/-- Shallow embedding of calculate_keyword_similarity (app.py lines 2599
to 2617): matched extracted keywords over extracted keywords, zero when
none are extracted. -/
def calculateKeywordSimilarity (description : String) (p : ProductRecord) : ℚ :=
  let keywords := extractKeywords description
  if keywords.isEmpty then 0
  else
    let ptext := lowerStr (productText p)
    mkRat (keywords.countP (fun kw => substrOf (lowerStr kw) ptext)) keywords.length

/-- The synonym table of calculate_category_similarity (app.py lines 2633
to 2641). -/
def categorySynonyms : List (String × List String) :=
  [("shirt", ["top", "blouse", "tshirt", "polo", "dress shirt"]),
   ("dress", ["gown", "frock", "maxi", "mini", "midi"]),
   ("pants", ["trousers", "jeans", "leggings", "slacks"]),
   ("jacket", ["coat", "blazer", "cardigan", "hoodie"]),
   ("shoes", ["footwear", "sneakers", "boots", "sandals", "heels"]),
   ("bag", ["purse", "handbag", "backpack", "tote"]),
   ("hat", ["cap", "beanie", "fedora"])]

/-- The synonym loop of calculate_category_similarity: first entry that
links the product type to the description returns 0.8. -/
def categorySimLoop (productType dl : String) : List (String × List String) → ℚ
  | [] => 0
  | cs :: rest =>
    if productType = cs.1 then
      if cs.2.any (fun syn => substrOf syn dl) then mkRat 4 5
      else categorySimLoop productType dl rest
    else if cs.2.contains productType && substrOf cs.1 dl then mkRat 4 5
    else categorySimLoop productType dl rest

/-- Shallow embedding of calculate_category_similarity (app.py lines 2619
to 2655): zero for a blank type, 1.0 when the lowercased type occurs in
the lowercased description, otherwise the synonym loop. -/
def calculateCategorySimilarity (description : String) (p : ProductRecord) : ℚ :=
  let productType := lowerStr p.productType
  let dl := lowerStr description
  if productType.data.isEmpty then 0
  else if substrOf productType dl then 1
  else categorySimLoop productType dl categorySynonyms

/-- The color vocabulary of calculate_text_visual_similarity. -/
def visualColors : List String :=
  ["red", "blue", "green", "yellow", "black", "white", "gray", "brown",
   "pink", "purple", "orange", "navy", "beige", "khaki"]

/-- The pattern vocabulary of calculate_text_visual_similarity. -/
def visualPatterns : List String :=
  ["striped", "floral", "solid", "plaid", "checkered", "polka", "printed"]

/-- The style vocabulary of calculate_text_visual_similarity. -/
def visualStyles : List String :=
  ["casual", "formal", "vintage", "modern", "elegant", "sporty"]

/-- Shallow embedding of calculate_text_visual_similarity (app.py lines
2657 to 2693): vocabulary words present in both texts, over the total
vocabulary size; the product side is name and description only. -/
def calculateTextVisualSimilarity (description : String) (p : ProductRecord) : ℚ :=
  let dl := lowerStr description
  let ptext := lowerStr (p.productName ++ " " ++ p.productDiscription)
  let colorMatches := visualColors.countP (fun w => substrOf w dl && substrOf w ptext)
  let patternMatches := visualPatterns.countP (fun w => substrOf w dl && substrOf w ptext)
  let styleMatches := visualStyles.countP (fun w => substrOf w dl && substrOf w ptext)
  mkRat (colorMatches + patternMatches + styleMatches)
    (visualColors.length + visualPatterns.length + visualStyles.length)

/-- Shallow embedding of calculate_advanced_similarity (app.py lines 2552
to 2572): the weighted sum of the four signals capped at one. -/
def calculateAdvancedSimilarity (encode : String → List ℚ)
    (cosSim : List ℚ → List ℚ → ℚ) (description : String) (p : ProductRecord) : ℚ :=
  min (mkRat 2 5 * calculateSemanticSimilarity encode cosSim description p +
       mkRat 3 10 * calculateKeywordSimilarity description p +
       mkRat 1 5 * calculateCategorySimilarity description p +
       mkRat 1 10 * calculateTextVisualSimilarity description p) 1

/-- The category mapping of the engine constructor (app.py lines 2213 to
2222), in insertion order. -/
def categoryMapping : List (String × List String) :=
  [("shirt", ["shirt", "top", "blouse", "t-shirt", "polo", "tank", "vest"]),
   ("bag", ["bag", "purse", "handbag", "backpack", "tote", "clutch"]),
   ("watch", ["watch", "timepiece", "smartwatch"]),
   ("shoes", ["shoes", "sneakers", "boots", "sandals", "heels"]),
   ("jeans", ["jeans", "pants", "trouser", "denim"]),
   ("dress", ["dress", "gown", "frock"]),
   ("jacket", ["jacket", "coat", "blazer", "hoodie"]),
   ("accessories", ["accessories", "jewelry", "necklace", "bracelet"])]

/-- The per-category keyword hit counts of detect_product_category,
keeping only the positive ones in mapping order (the Python dict preserves
insertion order). -/
def categoryScoresOf (description : String) : List (String × Nat) :=
  categoryMapping.filterMap (fun ck =>
    let s := ck.2.countP (fun kw => substrOf kw (lowerStr description))
    if 0 < s then some (ck.1, s) else none)

/-- Shallow embedding of detect_product_category (app.py lines 2459 to
2483): the first category attaining the maximal positive score (Python
max replaces the running best only on strictly greater values), else the
generic-apparel fallback, else general. -/
def detectProductCategory (description : String) : String :=
  let dl := lowerStr description
  match categoryScoresOf description with
  | [] =>
    if ["clothing", "wear", "garment", "outfit"].any (fun w => substrOf w dl) then
      "clothing"
    else "general"
  | x :: rest => (rest.foldl (fun best p => if best.2 < p.2 then p else best) x).1

/-- The labels detect_product_category can produce. -/
def detectionLabels : List String :=
  ["shirt", "bag", "watch", "shoes", "jeans", "dress", "jacket", "accessories",
   "clothing", "general"]

/-- Provenance of a product in the combined image-match output. -/
inductive MatchReason where
  | visualSimilarity (score : ℚ)
  | categoryLabel (category : String)
deriving DecidableEq

/-- One annotated product of find_similar_products: the row plus the
similarity score, visual-match flag, match reason, and detected
category. -/
structure MatchedProduct where
  product : ProductRecord
  similarityScore : ℚ
  visualMatch : Bool
  matchReason : MatchReason
  detectedCategory : String
deriving DecidableEq

/-- The Python expression similarities.get(pid, 0) over the computed
visual-similarity map. -/
def simLookup (sims : List (Nat × ℚ)) (pid : Nat) : ℚ :=
  ((sims.find? (fun s => s.1 == pid)).map Prod.snd).getD 0

/-- The partition loop of find_similar_products (app.py lines 2353 to
2370): candidates with similarity above 0.3 join the visual list, other
candidates whose type matches the detected category either way join the
category list, the rest are dropped; order is preserved. -/
def splitMatches (detected : String) (sims : List (Nat × ℚ)) :
    List ProductRecord → List MatchedProduct × List MatchedProduct
  | [] => ([], [])
  | p :: rest =>
    let s := simLookup sims p.productId
    let vm := decide (mkRat 3 10 < s)
    let ptLower := lowerStr p.productType
    let catMatch := substrOf detected ptLower || substrOf ptLower detected
    let mc := splitMatches detected sims rest
    if mkRat 3 10 < s then
      ({ product := p, similarityScore := s, visualMatch := vm,
         matchReason := MatchReason.visualSimilarity s,
         detectedCategory := detected } :: mc.1, mc.2)
    else if catMatch then
      (mc.1,
       { product := p, similarityScore := s, visualMatch := vm,
         matchReason := MatchReason.categoryLabel detected,
         detectedCategory := detected } :: mc.2)
    else mc

/-- Visual-list order: similarity score descending. -/
def bySimDesc (a b : MatchedProduct) : Prop :=
  b.similarityScore ≤ a.similarityScore

instance : DecidableRel bySimDesc :=
  fun a b => inferInstanceAs (Decidable (b.similarityScore ≤ a.similarityScore))

instance : IsTotal MatchedProduct bySimDesc :=
  ⟨fun a b => le_total b.similarityScore a.similarityScore⟩

instance : IsTrans MatchedProduct bySimDesc :=
  ⟨fun _ _ _ h1 h2 => le_trans h2 h1⟩

/-- Category-list order: product ranking descending. -/
def byRankDesc (a b : MatchedProduct) : Prop :=
  b.product.productRanking ≤ a.product.productRanking

instance : DecidableRel byRankDesc :=
  fun a b =>
    inferInstanceAs (Decidable (b.product.productRanking ≤ a.product.productRanking))

instance : IsTotal MatchedProduct byRankDesc :=
  ⟨fun a b => le_total b.product.productRanking a.product.productRanking⟩

instance : IsTrans MatchedProduct byRankDesc :=
  ⟨fun _ _ _ h1 h2 => le_trans h2 h1⟩

/-- The combine phase of the visual path of find_similar_products (app.py
lines 2345 to 2392): detect the category, partition the candidates, sort
the visual list by similarity descending and the category list by ranking
descending (Python list.sort is stable, as is insertion sort), keep three
of each, concatenate, and truncate to the requested limit (the endpoint
default is 6). -/
def findSimilarProductsVisual (description : String) (sims : List (Nat × ℚ))
    (products : List ProductRecord) (limit : Nat) : List MatchedProduct :=
  let detected := detectProductCategory description
  let mc := splitMatches detected sims products
  let sortedMatched := List.insertionSort bySimDesc mc.1
  let sortedCategory := List.insertionSort byRankDesc mc.2
  (sortedMatched.take 3 ++ sortedCategory.take 3).take limit

/-- A quotient of natural counts is nonnegative. -/
theorem mkRat_natCast_nonneg (m n : Nat) : 0 ≤ mkRat (m : Int) n := by
  rw [Rat.mkRat_eq_div]
  positivity

/-- A quotient of natural counts with numerator at most the denominator is
at most one. -/
theorem mkRat_natCast_le_one {m n : Nat} (h : m ≤ n) : mkRat (m : Int) n ≤ 1 := by
  rw [Rat.mkRat_eq_div]
  rcases Nat.eq_zero_or_pos n with h0 | h0
  · subst h0
    simp
  · rw [div_le_one (by exact_mod_cast h0)]
    exact_mod_cast h

/-- Whether the synonym table links the lowercased product type to the
lowercased description, with the branch structure of the source loop: an
entry keyed by the type links through a synonym occurring in the
description, an entry whose synonym list holds the type links through the
key occurring in the description. -/
def synonymLinked (productType dl : String) : Bool :=
  categorySynonyms.any (fun cs =>
    (productType == cs.1 && cs.2.any (fun syn => substrOf syn dl)) ||
    (!(productType == cs.1) && cs.2.contains productType && substrOf cs.1 dl))

/-- Collapsing the first-match cascade of two if branches. -/
theorem boolIte_or (A B : Bool) (x y : ℚ) :
    (if A then x else if B then x else y) = if A || B then x else y := by
  cases A <;> cases B <;> simp

/-- The early-return synonym loop is the existence check over the table. -/
theorem categorySimLoop_eq_any (productType dl : String) :
    ∀ L, categorySimLoop productType dl L =
      if L.any (fun cs =>
          (productType == cs.1 && cs.2.any (fun syn => substrOf syn dl)) ||
          (!(productType == cs.1) && cs.2.contains productType && substrOf cs.1 dl))
      then mkRat 4 5 else 0
  | [] => by simp [categorySimLoop]
  | cs :: rest => by
    rw [categorySimLoop, categorySimLoop_eq_any productType dl rest]
    simp only [List.any_cons]
    by_cases h1 : productType = cs.1
    · subst h1
      rw [if_pos rfl]
      simp only [beq_self_eq_true, Bool.true_and, Bool.not_true, Bool.false_and,
        Bool.or_false]
      exact boolIte_or _ _ _ _
    · rw [if_neg h1]
      have hbeq : (productType == cs.1) = false := by
        simp [h1]
      simp only [hbeq, Bool.false_and, Bool.false_or, Bool.not_false, Bool.true_and]
      exact boolIte_or _ _ _ _

/-- The loop over the fixed table, phrased through synonymLinked. -/
theorem categorySimLoop_synonyms (productType dl : String) :
    categorySimLoop productType dl categorySynonyms =
      if synonymLinked productType dl then mkRat 4 5 else 0 :=
  categorySimLoop_eq_any productType dl categorySynonyms

/-- C2: the composite match score is the weighted sum 0.4 semantic + 0.3
keyword + 0.2 category + 0.1 visual-text capped at one, and it lies in
the unit interval for every description, product, embedder, and cosine
routine. -/
theorem composite_score_formula_and_bounds (encode : String → List ℚ)
    (cosSim : List ℚ → List ℚ → ℚ) (description : String) (p : ProductRecord) :
    calculateAdvancedSimilarity encode cosSim description p =
      min (mkRat 2 5 * calculateSemanticSimilarity encode cosSim description p +
           mkRat 3 10 * calculateKeywordSimilarity description p +
           mkRat 1 5 * calculateCategorySimilarity description p +
           mkRat 1 10 * calculateTextVisualSimilarity description p) 1 ∧
    0 ≤ calculateAdvancedSimilarity encode cosSim description p ∧
    calculateAdvancedSimilarity encode cosSim description p ≤ 1 := by
  have hs : 0 ≤ calculateSemanticSimilarity encode cosSim description p := by
    simp only [calculateSemanticSimilarity]
    split_ifs
    · exact le_refl 0
    · exact le_max_left 0 _
  have hk : 0 ≤ calculateKeywordSimilarity description p := by
    simp only [calculateKeywordSimilarity]
    split_ifs
    · exact le_refl 0
    · exact mkRat_natCast_nonneg _ _
  have hc : 0 ≤ calculateCategorySimilarity description p := by
    simp only [calculateCategorySimilarity]
    rw [categorySimLoop_synonyms]
    split_ifs
    · exact le_refl 0
    · exact zero_le_one
    · decide
    · exact le_refl 0
  have hv : 0 ≤ calculateTextVisualSimilarity description p := by
    simp only [calculateTextVisualSimilarity]
    exact mkRat_natCast_nonneg _ _
  refine ⟨rfl, ?_, min_le_right _ _⟩
  unfold calculateAdvancedSimilarity
  refine le_min ?_ zero_le_one
  have w1 : (0 : ℚ) ≤ mkRat 2 5 := by decide
  have w2 : (0 : ℚ) ≤ mkRat 3 10 := by decide
  have w3 : (0 : ℚ) ≤ mkRat 1 5 := by decide
  have w4 : (0 : ℚ) ≤ mkRat 1 10 := by decide
  have := add_nonneg (add_nonneg (add_nonneg (mul_nonneg w1 hs) (mul_nonneg w2 hk))
    (mul_nonneg w3 hc)) (mul_nonneg w4 hv)
  exact this

/-- A shirt-typed catalog row used to probe the category signal. -/
def shirtTypedProduct : ProductRecord :=
  { productId := 7, productName := "Linen Shirt", productDiscription := "",
    productType := "shirt", productPrice := 0, stockQuantity := 0, productRanking := 0 }

/-- C4 counterexample: on the description shirts and a shirt-typed item
the signal is 1.0 although no word token of the description equals the
item category; the direct match is substring containment, not token
equality. -/
theorem category_signal_not_token_based :
    calculateCategorySimilarity "shirts" shirtTypedProduct = 1 ∧
    (wordsOf (lowerStr "shirts")).contains (lowerStr shirtTypedProduct.productType) =
      false := by
  constructor <;> decide

/-- C4 amended: the category signal is 1.0 exactly when the nonblank
lowercased category occurs as a substring of the lowercased description,
0.8 exactly when it does not but the synonym table links category and
description by substring occurrence, and 0.0 otherwise; no other value
occurs. -/
theorem category_signal_characterization (description : String) (p : ProductRecord) :
    (calculateCategorySimilarity description p = 1 ↔
      (lowerStr p.productType).data ≠ [] ∧
      substrOf (lowerStr p.productType) (lowerStr description) = true) ∧
    (calculateCategorySimilarity description p = mkRat 4 5 ↔
      (lowerStr p.productType).data ≠ [] ∧
      substrOf (lowerStr p.productType) (lowerStr description) = false ∧
      synonymLinked (lowerStr p.productType) (lowerStr description) = true) ∧
    (calculateCategorySimilarity description p = 1 ∨
     calculateCategorySimilarity description p = mkRat 4 5 ∨
     calculateCategorySimilarity description p = 0) := by
  simp only [calculateCategorySimilarity]
  rw [categorySimLoop_synonyms]
  split_ifs with h1 h2 h3
  · rw [List.isEmpty_iff] at h1
    refine ⟨⟨fun h => absurd h (by decide), fun h => absurd h1 h.1⟩,
      ⟨fun h => absurd h (by decide), fun h => absurd h1 h.1⟩,
      Or.inr (Or.inr rfl)⟩
  · have h1d : (lowerStr p.productType).data ≠ [] := by
      simpa [List.isEmpty_iff] using h1
    refine ⟨⟨fun _ => ⟨h1d, h2⟩, fun _ => rfl⟩,
      ⟨fun h => absurd h (by decide), fun h => absurd h2 (by simp [h.2.1])⟩,
      Or.inl rfl⟩
  · have h1d : (lowerStr p.productType).data ≠ [] := by
      simpa [List.isEmpty_iff] using h1
    have h2f : substrOf (lowerStr p.productType) (lowerStr description) = false := by
      simpa using h2
    refine ⟨⟨fun h => absurd h (by decide), fun h => absurd h.2 h2⟩,
      ⟨fun _ => ⟨h1d, h2f, h3⟩, fun _ => rfl⟩,
      Or.inr (Or.inl rfl)⟩
  · have h1d : (lowerStr p.productType).data ≠ [] := by
      simpa [List.isEmpty_iff] using h1
    have h3f : synonymLinked (lowerStr p.productType) (lowerStr description) = false := by
      simpa using h3
    refine ⟨⟨fun h => absurd h (by decide), fun h => absurd h.2 h2⟩,
      ⟨fun h => absurd h (by decide), fun h => absurd h3f (by simp [h.2.2])⟩,
      Or.inr (Or.inr rfl)⟩

/-- The amended category-signal theorem evaluated on the description a
nice top against the shirt-typed item: the synonym link gives 0.8. -/
theorem category_signal_characterization_witness :
    calculateCategorySimilarity "a nice top" shirtTypedProduct = mkRat 4 5 :=
  ((category_signal_characterization "a nice top" shirtTypedProduct).2.1).mpr (by decide)

/-- Every entry of the visual list of the partition has the flag set, a
similarity strictly above 0.3, an originating candidate, and the score the
similarity map assigns to that candidate. -/
theorem splitMatches_fst_spec (detected : String) (sims : List (Nat × ℚ)) :
    ∀ (l : List ProductRecord) (m : MatchedProduct),
      m ∈ (splitMatches detected sims l).1 →
      m.visualMatch = true ∧ mkRat 3 10 < m.similarityScore ∧
      m.product ∈ l ∧ m.similarityScore = simLookup sims m.product.productId
  | [], m, hm => by simp [splitMatches] at hm
  | p :: rest, m, hm => by
    simp only [splitMatches] at hm
    split_ifs at hm with h1 h2
    · rcases List.mem_cons.mp hm with rfl | hmem
      · exact ⟨by simp [h1], h1, List.mem_cons_self _ _, rfl⟩
      · obtain ⟨hv, hlt, hp, hs⟩ := splitMatches_fst_spec detected sims rest m hmem
        exact ⟨hv, hlt, List.mem_cons_of_mem _ hp, hs⟩
    · obtain ⟨hv, hlt, hp, hs⟩ := splitMatches_fst_spec detected sims rest m hm
      exact ⟨hv, hlt, List.mem_cons_of_mem _ hp, hs⟩
    · obtain ⟨hv, hlt, hp, hs⟩ := splitMatches_fst_spec detected sims rest m hm
      exact ⟨hv, hlt, List.mem_cons_of_mem _ hp, hs⟩

/-- Every entry of the category list of the partition has the flag unset,
a similarity not above 0.3, a product type matching the detected category
by substring containment either way, an originating candidate, and the
score the similarity map assigns to that candidate. -/
theorem splitMatches_snd_spec (detected : String) (sims : List (Nat × ℚ)) :
    ∀ (l : List ProductRecord) (m : MatchedProduct),
      m ∈ (splitMatches detected sims l).2 →
      m.visualMatch = false ∧ ¬ mkRat 3 10 < m.similarityScore ∧
      (substrOf detected (lowerStr m.product.productType) ||
        substrOf (lowerStr m.product.productType) detected) = true ∧
      m.product ∈ l ∧ m.similarityScore = simLookup sims m.product.productId
  | [], m, hm => by simp [splitMatches] at hm
  | p :: rest, m, hm => by
    simp only [splitMatches] at hm
    split_ifs at hm with h1 h2
    · obtain ⟨hv, hlt, hc, hp, hs⟩ := splitMatches_snd_spec detected sims rest m hm
      exact ⟨hv, hlt, hc, List.mem_cons_of_mem _ hp, hs⟩
    · rcases List.mem_cons.mp hm with rfl | hmem
      · exact ⟨by simp [h1], h1, h2, List.mem_cons_self _ _, rfl⟩
      · obtain ⟨hv, hlt, hc, hp, hs⟩ := splitMatches_snd_spec detected sims rest m hmem
        exact ⟨hv, hlt, hc, List.mem_cons_of_mem _ hp, hs⟩
    · obtain ⟨hv, hlt, hc, hp, hs⟩ := splitMatches_snd_spec detected sims rest m hm
      exact ⟨hv, hlt, hc, List.mem_cons_of_mem _ hp, hs⟩

/-- C3: every entry of the combined image-match output carries the flag
visual_match = true exactly when the similarity the map assigns to its
candidate is strictly greater than 0.3; similarity exactly 0.3 therefore
gives visual_match = false. -/
theorem visual_match_iff_threshold
    (description : String) (sims : List (Nat × ℚ)) (products : List ProductRecord)
    (limit : Nat) (m : MatchedProduct)
    (hm : m ∈ findSimilarProductsVisual description sims products limit) :
    (m.visualMatch = true ↔ mkRat 3 10 < m.similarityScore) ∧
    m.similarityScore = simLookup sims m.product.productId ∧
    m.product ∈ products := by
  simp only [findSimilarProductsVisual] at hm
  have hm1 := List.take_subset _ _ hm
  rcases List.mem_append.mp hm1 with h | h
  · have h2 := List.take_subset _ _ h
    have h3 := (List.perm_insertionSort bySimDesc _).subset h2
    obtain ⟨hv, hlt, hp, hs⟩ :=
      splitMatches_fst_spec (detectProductCategory description) sims products m h3
    exact ⟨⟨fun _ => hlt, fun _ => hv⟩, hs, hp⟩
  · have h2 := List.take_subset _ _ h
    have h3 := (List.perm_insertionSort byRankDesc _).subset h2
    obtain ⟨hv, hnlt, -, hp, hs⟩ :=
      splitMatches_snd_spec (detectProductCategory description) sims products m h3
    exact ⟨⟨fun hvt => absurd hvt (by simp [hv]), fun hlt => absurd hlt hnlt⟩, hs, hp⟩

/-- A candidate whose stored-image similarity is exactly the threshold. -/
def boundaryLow : ProductRecord :=
  { productId := 1, productName := "Classic Shirt", productDiscription := "",
    productType := "shirt", productPrice := 0, stockQuantity := 0, productRanking := 1 }

/-- A candidate whose stored-image similarity is just above the
threshold. -/
def boundaryHigh : ProductRecord :=
  { productId := 2, productName := "Summer Shirt", productDiscription := "",
    productType := "shirt", productPrice := 0, stockQuantity := 0, productRanking := 2 }

/-- Similarities 0.3 and 0.30001 for the two boundary candidates. -/
def boundarySims : List (Nat × ℚ) := [(1, mkRat 3 10), (2, mkRat 30001 100000)]

/-- The output entry for the candidate at the threshold. -/
def boundaryLowMatch : MatchedProduct :=
  { product := boundaryLow, similarityScore := mkRat 3 10, visualMatch := false,
    matchReason := MatchReason.categoryLabel "shirt", detectedCategory := "shirt" }

/-- The output entry for the candidate just above the threshold. -/
def boundaryHighMatch : MatchedProduct :=
  { product := boundaryHigh, similarityScore := mkRat 30001 100000, visualMatch := true,
    matchReason := MatchReason.visualSimilarity (mkRat 30001 100000),
    detectedCategory := "shirt" }

/-- The threshold theorem evaluated at the boundary: similarity 0.3 gives
visual_match = false, similarity 0.30001 gives visual_match = true. -/
theorem visual_match_iff_threshold_witness :
    (boundaryHighMatch.visualMatch = true ↔
      mkRat 3 10 < boundaryHighMatch.similarityScore) ∧
    (boundaryLowMatch.visualMatch = true ↔
      mkRat 3 10 < boundaryLowMatch.similarityScore) ∧
    boundaryLowMatch.similarityScore = mkRat 3 10 ∧
    boundaryLowMatch.visualMatch = false ∧
    boundaryHighMatch.visualMatch = true := by
  have h1 := visual_match_iff_threshold "shirt" boundarySims [boundaryLow, boundaryHigh]
    6 boundaryHighMatch (by decide)
  have h2 := visual_match_iff_threshold "shirt" boundarySims [boundaryLow, boundaryHigh]
    6 boundaryLowMatch (by decide)
  exact ⟨h1.1, h2.1, rfl, rfl, rfl⟩

/-- The candidate ids of the two partition lists, in order, form a
sub-permutation of the candidate ids: each candidate lands in at most one
list and no candidate is duplicated. -/
theorem splitMatches_ids_subperm (detected : String) (sims : List (Nat × ℚ)) :
    ∀ l : List ProductRecord,
      List.Subperm
        ((splitMatches detected sims l).1.map (fun m => m.product.productId) ++
         (splitMatches detected sims l).2.map (fun m => m.product.productId))
        (l.map ProductRecord.productId)
  | [] => by simp [splitMatches]
  | p :: rest => by
    have IH := splitMatches_ids_subperm detected sims rest
    simp only [splitMatches, List.map_cons]
    split_ifs with h1 h2
    · simp only [List.map_cons, List.cons_append]
      exact (List.subperm_cons _).mpr IH
    · simp only [List.map_cons]
      exact List.perm_middle.subperm.trans ((List.subperm_cons _).mpr IH)
    · exact IH.trans (List.sublist_cons_self _ _).subperm

/-- Nodup transfers down a sub-permutation. -/
theorem subperm_nodup {α : Type} {l1 l2 : List α} (h : List.Subperm l1 l2)
    (h2 : l2.Nodup) : l1.Nodup := by
  obtain ⟨l, hp, hs⟩ := h
  exact hp.nodup_iff.mp (h2.sublist hs)

/-- Two category-matching candidates whose ranking order opposes their
composite-score order. -/
def rankedShirtA : ProductRecord :=
  { productId := 1, productName := "red shirt", productDiscription := "",
    productType := "shirt", productPrice := 0, stockQuantity := 0, productRanking := 1 }

/-- The lower-composite, higher-ranking counterpart of rankedShirtA. -/
def rankedShirtB : ProductRecord :=
  { productId := 2, productName := "plain item", productDiscription := "",
    productType := "shirt", productPrice := 0, stockQuantity := 0, productRanking := 5 }

/-- An embedder that maps every text to the empty vector, for closed
evaluations where the semantic signal is irrelevant. -/
def zeroEncode : String → List ℚ := fun _ => []

/-- A cosine routine that returns zero on every pair. -/
def zeroCosine : List ℚ → List ℚ → ℚ := fun _ _ => 0

/-- C5 counterexample: with no visual matches the combined output orders
the category segment by product ranking, not by composite score: item 2
precedes item 1 although item 1 has the strictly higher composite score
under any embedder with zero cosine similarity. -/
theorem combined_order_not_by_composite :
    ((findSimilarProductsVisual "red shirt" [] [rankedShirtA, rankedShirtB] 6).map
        (fun m => m.product.productId)) = [2, 1] ∧
    (findSimilarProductsVisual "red shirt" [] [rankedShirtA, rankedShirtB] 6).all
        (fun m => !m.visualMatch) = true ∧
    calculateAdvancedSimilarity zeroEncode zeroCosine "red shirt" rankedShirtB <
      calculateAdvancedSimilarity zeroEncode zeroCosine "red shirt" rankedShirtA := by
  refine ⟨by decide, by decide, ?_⟩
  with_unfolding_all decide

/-- C5 amended: the combined output is the visual segment followed by the
category segment, truncated to the limit; the visual segment holds
candidates with similarity above 0.3 sorted by similarity descending and
capped at three, the category segment holds non-visual candidates whose
product type matches the detected category by substring containment
either way, sorted by product ranking descending (not by composite
score) and capped at three, and when the candidate ids are distinct no
id appears twice in the output. -/
theorem find_similar_visual_ordering
    (description : String) (sims : List (Nat × ℚ)) (products : List ProductRecord)
    (limit : Nat) :
    ∃ vis cat : List MatchedProduct,
      findSimilarProductsVisual description sims products limit = (vis ++ cat).take limit ∧
      vis.length ≤ 3 ∧ cat.length ≤ 3 ∧
      (∀ m ∈ vis, m.visualMatch = true ∧ mkRat 3 10 < m.similarityScore ∧
        m.product ∈ products) ∧
      (∀ m ∈ cat, m.visualMatch = false ∧
        (substrOf (detectProductCategory description) (lowerStr m.product.productType) ||
          substrOf (lowerStr m.product.productType)
            (detectProductCategory description)) = true ∧
        m.product ∈ products) ∧
      vis.Sorted bySimDesc ∧ cat.Sorted byRankDesc ∧
      (findSimilarProductsVisual description sims products limit).length ≤ limit ∧
      ((products.map ProductRecord.productId).Nodup →
        ((findSimilarProductsVisual description sims products limit).map
            (fun m => m.product.productId)).Nodup) := by
  refine ⟨(List.insertionSort bySimDesc
      (splitMatches (detectProductCategory description) sims products).1).take 3,
    (List.insertionSort byRankDesc
      (splitMatches (detectProductCategory description) sims products).2).take 3,
    rfl, List.length_take_le _ _, List.length_take_le _ _, ?_, ?_, ?_, ?_,
    List.length_take_le _ _, ?_⟩
  · intro m hm
    have h2 := List.take_subset _ _ hm
    have h3 := (List.perm_insertionSort bySimDesc _).subset h2
    obtain ⟨hv, hlt, hp, -⟩ :=
      splitMatches_fst_spec (detectProductCategory description) sims products m h3
    exact ⟨hv, hlt, hp⟩
  · intro m hm
    have h2 := List.take_subset _ _ hm
    have h3 := (List.perm_insertionSort byRankDesc _).subset h2
    obtain ⟨hv, -, hc, hp, -⟩ :=
      splitMatches_snd_spec (detectProductCategory description) sims products m h3
    exact ⟨hv, hc, hp⟩
  · exact List.Pairwise.sublist (List.take_sublist _ _)
      (List.sorted_insertionSort bySimDesc _)
  · exact List.Pairwise.sublist (List.take_sublist _ _)
      (List.sorted_insertionSort byRankDesc _)
  · intro hnd
    have base := subperm_nodup
      (splitMatches_ids_subperm (detectProductCategory description) sims products) hnd
    have hpm : List.Perm
        ((List.insertionSort bySimDesc
          (splitMatches (detectProductCategory description) sims products).1).map
            (fun m => m.product.productId))
        ((splitMatches (detectProductCategory description) sims products).1.map
          (fun m => m.product.productId)) :=
      (List.perm_insertionSort bySimDesc _).map _
    have hpc : List.Perm
        ((List.insertionSort byRankDesc
          (splitMatches (detectProductCategory description) sims products).2).map
            (fun m => m.product.productId))
        ((splitMatches (detectProductCategory description) sims products).2.map
          (fun m => m.product.productId)) :=
      (List.perm_insertionSort byRankDesc _).map _
    have hnd2 := (hpm.append hpc).nodup_iff.mpr base
    have hsub : List.Sublist
        ((((List.insertionSort bySimDesc
            (splitMatches (detectProductCategory description) sims products).1).take 3).map
              (fun m => m.product.productId)) ++
         (((List.insertionSort byRankDesc
            (splitMatches (detectProductCategory description) sims products).2).take 3).map
              (fun m => m.product.productId)))
        (((List.insertionSort bySimDesc
            (splitMatches (detectProductCategory description) sims products).1).map
              (fun m => m.product.productId)) ++
         ((List.insertionSort byRankDesc
            (splitMatches (detectProductCategory description) sims products).2).map
              (fun m => m.product.productId))) :=
      List.Sublist.append
        ((List.take_sublist 3 _).map (fun m : MatchedProduct => m.product.productId))
        ((List.take_sublist 3 _).map (fun m : MatchedProduct => m.product.productId))
    have hnd3 := hnd2.sublist hsub
    have hfin : List.Sublist
        ((((List.insertionSort bySimDesc
            (splitMatches (detectProductCategory description) sims products).1).take 3 ++
          (List.insertionSort byRankDesc
            (splitMatches (detectProductCategory description) sims products).2).take
              3).take limit).map (fun m => m.product.productId))
        ((((List.insertionSort bySimDesc
            (splitMatches (detectProductCategory description) sims products).1).take 3).map
              (fun m => m.product.productId)) ++
         (((List.insertionSort byRankDesc
            (splitMatches (detectProductCategory description) sims products).2).take 3).map
              (fun m => m.product.productId))) := by
      rw [List.map_take, List.map_append]
      exact List.take_sublist _ _
    exact hnd3.sublist hfin

/-- The ordering theorem evaluated on the boundary example: the combined
list has no duplicate product id. -/
theorem find_similar_visual_ordering_witness :
    ((findSimilarProductsVisual "shirt" boundarySims [boundaryLow, boundaryHigh] 6).map
        (fun m => m.product.productId)).Nodup := by
  obtain ⟨vis, cat, -, -, -, -, -, -, -, -, hnd⟩ :=
    find_similar_visual_ordering "shirt" boundarySims [boundaryLow, boundaryHigh] 6
  exact hnd (by decide)

/-- The running maximum of the score values, starting from a. -/
def listMaxVal (l : List (String × Nat)) (a : Nat) : Nat :=
  l.foldl (fun m q => max m q.2) a

/-- The running maximum dominates its seed. -/
theorem le_listMaxVal : ∀ (l : List (String × Nat)) (a : Nat), a ≤ listMaxVal l a
  | [], a => le_refl a
  | q :: l, a => le_trans (le_max_left a q.2) (le_listMaxVal l (max a q.2))

/-- The strict-replacement fold returns one of its inputs. -/
theorem foldMax_mem :
    ∀ (l : List (String × Nat)) (x : String × Nat),
      l.foldl (fun best p => if best.2 < p.2 then p else best) x ∈ x :: l
  | [], x => List.mem_cons_self x []
  | y :: l, x => by
    simp only [List.foldl_cons]
    by_cases h : x.2 < y.2
    · rw [if_pos h]
      exact List.mem_cons_of_mem x (foldMax_mem l y)
    · rw [if_neg h]
      rcases List.mem_cons.mp (foldMax_mem l x) with he | hm
      · rw [he]
        exact List.mem_cons_self x (y :: l)
      · exact List.mem_cons_of_mem x (List.mem_cons_of_mem y hm)

/-- The strict-replacement fold of Python max with a key function picks
the first entry attaining the maximal value. -/
theorem argmax_first :
    ∀ (l : List (String × Nat)) (x : String × Nat),
      (x :: l).find? (fun p => decide (listMaxVal l x.2 ≤ p.2)) =
        some (l.foldl (fun best p => if best.2 < p.2 then p else best) x)
  | [], x => by simp [listMaxVal]
  | y :: l, x => by
    by_cases hxy : x.2 < y.2
    · have hmax : max x.2 y.2 = y.2 := Nat.max_eq_right hxy.le
      have e1 : listMaxVal (y :: l) x.2 = listMaxVal l y.2 := by
        simp [listMaxVal, hmax]
      have hy : y.2 ≤ listMaxVal l y.2 := le_listMaxVal l y.2
      have hpredx : ¬ listMaxVal (y :: l) x.2 ≤ x.2 := by
        rw [e1]; omega
      rw [List.find?_cons_of_neg _ (by simpa using hpredx)]
      simp only [e1]
      have e2 : (y :: l).foldl (fun best p => if best.2 < p.2 then p else best) x =
          l.foldl (fun best p => if best.2 < p.2 then p else best) y := by
        simp [List.foldl_cons, if_pos hxy]
      rw [e2]
      exact argmax_first l y
    · have hyx : y.2 ≤ x.2 := Nat.le_of_not_lt hxy
      have hmax : max x.2 y.2 = x.2 := Nat.max_eq_left hyx
      have e1 : listMaxVal (y :: l) x.2 = listMaxVal l x.2 := by
        simp [listMaxVal, hmax]
      have e2 : (y :: l).foldl (fun best p => if best.2 < p.2 then p else best) x =
          l.foldl (fun best p => if best.2 < p.2 then p else best) x := by
        simp [List.foldl_cons, if_neg hxy]
      have IH := argmax_first l x
      rw [e2]
      by_cases hx : listMaxVal l x.2 ≤ x.2
      · rw [List.find?_cons_of_pos _ (by simpa [e1] using hx)]
        rw [List.find?_cons_of_pos _ (by simpa using hx)] at IH
        exact IH
      · have hpredy : ¬ listMaxVal (y :: l) x.2 ≤ y.2 := by
          rw [e1]; omega
        rw [List.find?_cons_of_neg _ (by simpa [e1] using hx),
          List.find?_cons_of_neg _ (by simpa using hpredy)]
        rw [List.find?_cons_of_neg _ (by simpa using hx)] at IH
        have e3 : (fun p : String × Nat => decide (listMaxVal (y :: l) x.2 ≤ p.2)) =
            (fun p : String × Nat => decide (listMaxVal l x.2 ≤ p.2)) := by
          funext p
          rw [e1]
        rw [e3]
        exact IH

/-- C10: for every description the detected category is a nonempty label
from the fixed ten-label set; with positive scores the result is the
first mapping entry attaining the maximal score (ties in favor of the
earlier-inserted category), and with no positive score the result is the
generic-apparel fallback. -/
theorem detect_category_total_first_max (description : String) :
    detectProductCategory description ∈ detectionLabels ∧
    detectProductCategory description ≠ "" ∧
    (∀ x rest, categoryScoresOf description = x :: rest →
      ((x :: rest).find? (fun p => decide (listMaxVal rest x.2 ≤ p.2))).map Prod.fst =
        some (detectProductCategory description)) ∧
    (categoryScoresOf description = [] →
      detectProductCategory description =
        if ["clothing", "wear", "garment", "outfit"].any
            (fun w => substrOf w (lowerStr description)) then "clothing"
        else "general") := by
  rcases hsc : categoryScoresOf description with _ | ⟨x, rest⟩
  · have hd : detectProductCategory description =
        if ["clothing", "wear", "garment", "outfit"].any
            (fun w => substrOf w (lowerStr description)) then "clothing"
        else "general" := by
      simp [detectProductCategory, hsc]
    refine ⟨?_, ?_, ?_, fun _ => hd⟩
    · rw [hd]; split_ifs <;> decide
    · rw [hd]; split_ifs <;> decide
    · intro x rest h
      simp at h
  · have hd : detectProductCategory description =
        (rest.foldl (fun best p => if best.2 < p.2 then p else best) x).1 := by
      simp [detectProductCategory, hsc]
    have hkeys : ∀ p ∈ categoryScoresOf description, p.1 ∈ detectionLabels := by
      intro p hp
      obtain ⟨ck, hck, he⟩ := List.mem_filterMap.mp hp
      simp only at he
      split_ifs at he with hpos
      · obtain rfl := Option.some.inj he
        have hall : ∀ c ∈ categoryMapping, c.1 ∈ detectionLabels := by decide
        exact hall ck hck
    have hmemscores : rest.foldl (fun best p => if best.2 < p.2 then p else best) x ∈
        categoryScoresOf description := by
      rw [hsc]
      exact foldMax_mem rest x
    have hmem : detectProductCategory description ∈ detectionLabels := by
      rw [hd]
      exact hkeys _ hmemscores
    refine ⟨hmem, ?_, ?_, ?_⟩
    · have hne : ∀ s ∈ detectionLabels, s ≠ "" := by decide
      exact hne _ hmem
    · intro x2 rest2 h2
      injection h2 with hx hrest
      subst hx
      subst hrest
      rw [argmax_first rest x, hd]
      rfl
    · intro h
      simp at h

/-- The detection theorem evaluated on a concrete description: jeans and
dress keywords both occur, jeans scores higher and is returned; the
result is in the label set. -/
theorem detect_category_total_first_max_witness :
    detectProductCategory "denim jeans and a dress" ∈ detectionLabels ∧
    ((([("jeans", 2), ("dress", 1)] : List (String × Nat)).find?
        (fun p => decide (listMaxVal [("dress", 1)] 2 ≤ p.2))).map Prod.fst) =
      some (detectProductCategory "denim jeans and a dress") := by
  have h := detect_category_total_first_max "denim jeans and a dress"
  exact ⟨h.1, h.2.2.1 ("jeans", 2) [("dress", 1)] (by decide)⟩
